import Mathlib

/-
Verification of the shortbus Python client (`examples/client.py`,
class `ShortbusClient`) against its design specification.

The client is embedded shallowly:

* A decoded JSON record is a `Rec`, tracking the five fields the client
  inspects (`type`, `topic`, `request_id`, `status`, `error`); a Python
  `dict.get` of an absent key is `none`.  Payload and metadata are opaque
  to all of the client's control flow and are not tracked.
* The client's mutable state (`request_id` counter, `callbacks` dict,
  `message_handlers` dict, `running` flag) is a `ClientState`; the two
  dicts are association lists with insertion-order semantics, matching
  Python dicts.
* Subscriber handlers and per-request callbacks are identified by
  numeric tokens.  Whether a handler raises on a given message is
  supplied as a parameter `raises : Nat → Rec → Option String`
  (`some e` means the handler raises with message `e`).
* Observable side effects (invoking a handler, firing a callback,
  logging) are reified as an `Event` trace; outbound actions of the
  facade operations (registry mutation, writing a command line) are an
  `Action` trace.
* `event.wait(timeout)` plus the shared `result` dict of each facade
  operation is summarised by a parameter `resolved : Option Rec`:
  `some r` means the dispatcher fired the callback with record `r`
  before the timeout, `none` means no response arrived in time.
-/

namespace Shortbus

/-- A decoded JSON record, restricted to the fields the client reads. -/
structure Rec where
  type? : Option String := none
  topic? : Option String := none
  request_id? : Option Nat := none
  status? : Option String := none
  error? : Option String := none
deriving DecidableEq, Repr

/-- The empty record: a decoded `{}` (falsy as a Python dict). -/
def Rec.empty : Rec := {}

/-- An outbound command line, as far as the client logic inspects it. -/
structure Cmd where
  op : String
  topic? : Option String := none
  request_id : Nat
deriving DecidableEq, Repr

/-- Client state: `self.request_id`, `self.callbacks`,
`self.message_handlers`, `self.running`. -/
structure ClientState where
  request_id : Nat := 0
  callbacks : List (Nat × Nat) := []
  message_handlers : List (String × List Nat) := []
  running : Bool := true
deriving DecidableEq, Repr

/-- Observable effects of the dispatcher (`_handle_response` and the read
loop): handler invocations, callback completions, and log lines. -/
inductive Event where
  | handlerCalled (h : Nat) (data : Rec)
  | handlerErrorLogged (h : Nat) (e : String)
  | callbackCalled (w : Nat) (data : Rec)
  | errorLogged (e : Option String)
  | parseErrorLogged (line : String)
deriving DecidableEq, Repr

/-- Outbound actions of a facade operation, in program order. -/
inductive Action where
  | registerHandler (topic : String) (h : Nat)
  | clearHandlers (topic : String)
  | write (cmd : Cmd)
deriving DecidableEq, Repr

/-- First-match association-list lookup (Python `d[k]` / `k in d`). -/
def lookupKey {κ β : Type} [DecidableEq κ] : List (κ × β) → κ → Option β
  | [], _ => none
  | (a, b) :: rest, k => if a = k then some b else lookupKey rest k

/-- Association-list key removal (Python `d.pop(k)` / `del d[k]`). -/
def removeKey {κ β : Type} [DecidableEq κ] : List (κ × β) → κ → List (κ × β)
  | [], _ => []
  | (a, b) :: rest, k => if a = k then removeKey rest k else (a, b) :: removeKey rest k

/-- Association-list assignment (Python `d[k] = v`): update in place if
the key exists, else append, matching dict insertion order. -/
def setKey {κ β : Type} [DecidableEq κ] : List (κ × β) → κ → β → List (κ × β)
  | [], k, v => [(k, v)]
  | (a, b) :: rest, k, v => if a = k then (k, v) :: rest else (a, b) :: setKey rest k v

/-- `subscribe`'s registry step: create the topic's list if absent, then
append the handler (`message_handlers.setdefault`-style idiom). -/
def appendHandler : List (String × List Nat) → String → Nat → List (String × List Nat)
  | [], t, h => [(t, [h])]
  | (a, hs) :: rest, t, h =>
    if a = t then (a, hs ++ [h]) :: rest else (a, hs) :: appendHandler rest t h

/-- The handler loop of `_handle_response`: invoke each handler in list
order; a raising handler is caught and logged and the loop continues. -/
def runHandlers (raises : Nat → Rec → Option String) : List Nat → Rec → List Event
  | [], _ => []
  | h :: rest, data =>
    Event.handlerCalled h data ::
      ((match raises h data with
        | some e => [Event.handlerErrorLogged h e]
        | none => []) ++ runHandlers raises rest data)

/-- `ShortbusClient._handle_response`: the `type == "message"` branch
dispatches to subscribers and returns; otherwise a registered callback
matching `request_id` is popped and fired, and then, in a separate `if`,
a record with `type == "error"` is logged. -/
def handle_response (raises : Nat → Rec → Option String) (st : ClientState)
    (data : Rec) : ClientState × List Event :=
  if data.type? = some "message" then
    match data.topic? with
    | some topic =>
      match lookupKey st.message_handlers topic with
      | some hs => (st, runHandlers raises hs data)
      | none => (st, [])
    | none => (st, [])
  else
    let resolved : ClientState × List Event :=
      match data.request_id? with
      | some rid =>
        match lookupKey st.callbacks rid with
        | some w =>
          ({ st with callbacks := removeKey st.callbacks rid },
           [Event.callbackCalled w data])
        | none => (st, [])
      | none => (st, [])
    (resolved.1,
     resolved.2 ++
       (if data.type? = some "error" then [Event.errorLogged data.error?] else []))

/-- Python `str.strip()` with no argument: drop leading and trailing
whitespace characters. -/
def pyStrip (s : String) : String :=
  String.mk (((s.data.dropWhile Char.isWhitespace).reverse.dropWhile
    Char.isWhitespace).reverse)

/-- One iteration of the `_read_responses` loop on one inbound line:
strip, skip blank lines, parse (the JSON decoder is a parameter), and
hand the record to `_handle_response`; a parse failure is logged and the
loop moves on. -/
def processLine (raises : Nat → Rec → Option String) (parse : String → Option Rec)
    (st : ClientState) (line : String) : ClientState × List Event :=
  let l := pyStrip line
  if l = "" then (st, [])
  else
    match parse l with
    | some data => handle_response raises st data
    | none => (st, [Event.parseErrorLogged l])

/-- The `finally` clause of `_read_responses`, reached on end of stream
or on an unrecoverable read fault: set `self.running = False`. -/
def on_stream_end (st : ClientState) : ClientState :=
  { st with running := false }

/-- `ShortbusClient._send`: bump the id counter, stamp the command,
store the callback when one is given, and write the line.  There is no
check of `running`: the write is attempted unconditionally. -/
def send (st : ClientState) (op : String) (topic? : Option String)
    (callback? : Option Nat) : ClientState × Nat × List Action :=
  let rid := st.request_id + 1
  let cbs :=
    match callback? with
    | some w => setKey st.callbacks rid w
    | none => st.callbacks
  ({ st with request_id := rid, callbacks := cbs },
   rid,
   [Action.write { op := op, topic? := topic?, request_id := rid }])

/-- Operation-scoped failures a facade call can raise:
`TimeoutError(msg)` and plain `Exception(msg)` on a non-ok status. -/
inductive OpErr where
  | timeout (msg : String)
  | failed (msg : String)
deriving DecidableEq, Repr

/-- The shared post-wait logic of `publish` and `subscribe`: an empty
`result` means timeout; a non-`"ok"` status raises with the broker's
`error` string (or the given default); otherwise the record is
returned. -/
def finishStrict (resolved : Option Rec) (timeoutMsg defaultErr : String) :
    Except OpErr Rec :=
  match resolved with
  | none => Except.error (OpErr.timeout timeoutMsg)
  | some r =>
    if r = Rec.empty then Except.error (OpErr.timeout timeoutMsg)
    else if r.status? = some "ok" then Except.ok r
    else Except.error (OpErr.failed (r.error?.getD defaultErr))

/-- `ShortbusClient.publish` (payload and metadata are opaque): send the
command with a fresh waiter `w`, then wait and post-process. -/
def publishRun (st : ClientState) (w : Nat) (topic : String)
    (resolved : Option Rec) : ClientState × List Action × Except OpErr Rec :=
  let sent := send st "publish" (some topic) (some w)
  (sent.1, sent.2.2, finishStrict resolved "Publish timeout" "Publish failed")

/-- The registry step of `ShortbusClient.subscribe`, executed before the
command is sent: append the handler to the topic's ordered list. -/
def subscribeRegister (st : ClientState) (topic : String) (h : Nat) : ClientState :=
  { st with message_handlers := appendHandler st.message_handlers topic h }

/-- `ShortbusClient.subscribe`: register the handler first, then send
the command with a fresh waiter `w`, then wait and post-process. -/
def subscribeRun (st : ClientState) (topic : String) (h : Nat) (w : Nat)
    (resolved : Option Rec) : ClientState × List Action × Except OpErr Rec :=
  let st1 := subscribeRegister st topic h
  let sent := send st1 "subscribe" (some topic) (some w)
  (sent.1, Action.registerHandler topic h :: sent.2.2,
   finishStrict resolved "Subscribe timeout" "Subscribe failed")

/-- `ShortbusClient.unsubscribe`: delete the topic's whole handler list
first, then send the command; after the wait the (possibly empty)
`result` dict is returned with no timeout or status check. -/
def unsubscribeRun (st : ClientState) (topic : String) (w : Nat)
    (resolved : Option Rec) : ClientState × List Action × Except OpErr Rec :=
  let st1 := { st with
    message_handlers := removeKey st.message_handlers topic }
  let sent := send st1 "unsubscribe" (some topic) (some w)
  (sent.1, Action.clearHandlers topic :: sent.2.2,
   Except.ok (resolved.getD Rec.empty))

/-- `ShortbusClient.ping`: send, wait; an empty `result` raises
`TimeoutError`; otherwise the record is returned with no status check. -/
def pingRun (st : ClientState) (w : Nat) (resolved : Option Rec) :
    ClientState × List Action × Except OpErr Rec :=
  let sent := send st "ping" none (some w)
  let res :=
    match resolved with
    | none => Except.error (OpErr.timeout "Ping timeout")
    | some r =>
      if r = Rec.empty then Except.error (OpErr.timeout "Ping timeout")
      else Except.ok r
  (sent.1, sent.2.2, res)

/-- Waiter completions extracted from an event trace. -/
def calledWaiters (evs : List Event) : List (Nat × Rec) :=
  evs.filterMap fun e =>
    match e with
    | Event.callbackCalled w data => some (w, data)
    | _ => none

/-- Handler invocations extracted from an event trace. -/
def calledHandlers (evs : List Event) : List Nat :=
  evs.filterMap fun e =>
    match e with
    | Event.handlerCalled h _ => some h
    | _ => none

/-- Unsolicited-error log lines extracted from an event trace. -/
def errorLogs (evs : List Event) : List (Option String) :=
  evs.filterMap fun e =>
    match e with
    | Event.errorLogged msg => some msg
    | _ => none

/-- Does the state hold a registered waiter for the record's id? -/
def noWaiterFor (st : ClientState) (data : Rec) : Bool :=
  match data.request_id? with
  | some rid => (lookupKey st.callbacks rid).isNone
  | none => true

/-! Association-list registry lemmas shared by the claim proofs. -/

theorem lookupKey_setKey_self {κ β : Type} [DecidableEq κ]
    (m : List (κ × β)) (k : κ) (v : β) :
    lookupKey (setKey m k v) k = some v := by
  induction m with
  | nil => simp [setKey, lookupKey]
  | cons p rest ih =>
    obtain ⟨a, b⟩ := p
    by_cases h : a = k
    · simp [setKey, h, lookupKey]
    · simp [setKey, h, lookupKey, ih]

theorem lookupKey_removeKey_self {κ β : Type} [DecidableEq κ]
    (m : List (κ × β)) (k : κ) :
    lookupKey (removeKey m k) k = none := by
  induction m with
  | nil => simp [removeKey, lookupKey]
  | cons p rest ih =>
    obtain ⟨a, b⟩ := p
    by_cases h : a = k
    · simp [removeKey, h, ih]
    · simp [removeKey, h, lookupKey, ih]

theorem lookupKey_removeKey_ne {κ β : Type} [DecidableEq κ]
    (m : List (κ × β)) (k k' : κ) (hne : ¬ k' = k) :
    lookupKey (removeKey m k) k' = lookupKey m k' := by
  induction m with
  | nil => simp [removeKey]
  | cons p rest ih =>
    obtain ⟨a, b⟩ := p
    by_cases h : a = k
    · subst h
      have hne' : ¬ a = k' := fun h' => hne h'.symm
      simp [removeKey, lookupKey, hne', ih]
    · simp [removeKey, h, lookupKey, ih]

theorem lookupKey_appendHandler_self
    (m : List (String × List Nat)) (t : String) (h : Nat) :
    lookupKey (appendHandler m t h) t =
      some ((lookupKey m t).getD [] ++ [h]) := by
  induction m with
  | nil => simp [appendHandler, lookupKey]
  | cons p rest ih =>
    obtain ⟨a, hs⟩ := p
    by_cases ha : a = t
    · simp [appendHandler, ha, lookupKey]
    · simp [appendHandler, ha, lookupKey, ih]

/-! Event-trace lemmas about the handler loop. -/

theorem calledHandlers_runHandlers (raises : Nat → Rec → Option String)
    (hs : List Nat) (data : Rec) :
    calledHandlers (runHandlers raises hs data) = hs := by
  induction hs with
  | nil => rfl
  | cons h rest ih =>
    cases hr : raises h data <;>
      simp [runHandlers, hr, calledHandlers] at ih ⊢ <;> exact ih

theorem calledWaiters_runHandlers (raises : Nat → Rec → Option String)
    (hs : List Nat) (data : Rec) :
    calledWaiters (runHandlers raises hs data) = [] := by
  induction hs with
  | nil => rfl
  | cons h rest ih =>
    cases hr : raises h data <;>
      simp [runHandlers, hr, calledWaiters] at ih ⊢ <;> exact ih

theorem errorLogs_runHandlers (raises : Nat → Rec → Option String)
    (hs : List Nat) (data : Rec) :
    errorLogs (runHandlers raises hs data) = [] := by
  induction hs with
  | nil => rfl
  | cons h rest ih =>
    cases hr : raises h data <;>
      simp [runHandlers, hr, errorLogs] at ih ⊢ <;> exact ih

/-- Waiter completions of the error-log tail are empty. -/
theorem calledWaiters_errTail (data : Rec) :
    calledWaiters
      (if data.type? = some "error" then [Event.errorLogged data.error?] else []) = [] := by
  by_cases herr : data.type? = some "error" <;> simp [herr, calledWaiters]

/-- C1: an inbound non-push record whose `request_id` matches a registered
waiter completes exactly that waiter with that record; every other waiter's
registration, and the subscription registry, are untouched.  The state is
universally quantified, so the property holds whatever other requests are
outstanding and in whatever order responses arrive. -/
theorem response_resolves_exact_waiter (raises : Nat → Rec → Option String)
    (st : ClientState) (data : Rec) (rid w : Nat)
    (hmsg : ¬ data.type? = some "message")
    (hrid : data.request_id? = some rid)
    (hreg : lookupKey st.callbacks rid = some w) :
    calledWaiters (handle_response raises st data).2 = [(w, data)] ∧
    lookupKey (handle_response raises st data).1.callbacks rid = none ∧
    (∀ k, ¬ k = rid →
      lookupKey (handle_response raises st data).1.callbacks k =
        lookupKey st.callbacks k) ∧
    (handle_response raises st data).1.message_handlers = st.message_handlers := by
  have hmain : handle_response raises st data =
      ({ st with callbacks := removeKey st.callbacks rid },
       Event.callbackCalled w data ::
         (if data.type? = some "error" then [Event.errorLogged data.error?] else [])) := by
    simp [handle_response, hmsg, hrid, hreg]
  rw [hmain]
  refine ⟨?_, lookupKey_removeKey_self _ _,
    fun k hk => lookupKey_removeKey_ne _ _ _ hk, rfl⟩
  by_cases herr : data.type? = some "error" <;> simp [herr, calledWaiters]

/-- Concrete instance of C1: with waiters 10 and 20 registered under ids 1
and 2, the response carrying `request_id` 2 completes waiter 20 and leaves
waiter 10 registered. -/
theorem response_resolves_exact_waiter_witness :
    calledWaiters (handle_response (fun _ _ => none)
      { request_id := 2, callbacks := [(1, 10), (2, 20)] }
      { request_id? := some 2, status? := some "ok" }).2 =
      [(20, { request_id? := some 2, status? := some "ok" })] ∧
    lookupKey (handle_response (fun _ _ => none)
      { request_id := 2, callbacks := [(1, 10), (2, 20)] }
      { request_id? := some 2, status? := some "ok" }).1.callbacks 2 = none ∧
    lookupKey (handle_response (fun _ _ => none)
      { request_id := 2, callbacks := [(1, 10), (2, 20)] }
      { request_id? := some 2, status? := some "ok" }).1.callbacks 1 = some 10 := by
  have h := response_resolves_exact_waiter (fun _ _ => none)
    { request_id := 2, callbacks := [(1, 10), (2, 20)] }
    { request_id? := some 2, status? := some "ok" } 2 20 (by decide) rfl rfl
  exact ⟨h.1, h.2.1, (h.2.2.1 1 (by decide)).trans rfl⟩

/-- When a non-push record has no registered waiter, `_handle_response`
leaves the state unchanged and at most logs an unsolicited error. -/
theorem handle_response_no_waiter (raises : Nat → Rec → Option String)
    (st : ClientState) (data : Rec)
    (hmsg : ¬ data.type? = some "message")
    (hno : noWaiterFor st data = true) :
    handle_response raises st data =
      (st, if data.type? = some "error" then [Event.errorLogged data.error?] else []) := by
  cases hdr : data.request_id? with
  | none => simp [handle_response, hmsg, hdr]
  | some rid =>
    have hlk : lookupKey st.callbacks rid = none := by
      simp [noWaiterFor, hdr, Option.isNone_iff_eq_none] at hno
      exact hno
    simp [handle_response, hmsg, hdr, hlk]

/-- After a non-push record is processed, no waiter remains registered
under its id: either none existed, or it was popped by resolution. -/
theorem noWaiterFor_post (raises : Nat → Rec → Option String)
    (st : ClientState) (data : Rec)
    (hmsg : ¬ data.type? = some "message") :
    noWaiterFor (handle_response raises st data).1 data = true := by
  cases hdr : data.request_id? with
  | none => simp [noWaiterFor, hdr]
  | some rid =>
    cases hlk : lookupKey st.callbacks rid with
    | none =>
      have hmain : handle_response raises st data =
          (st, if data.type? = some "error" then [Event.errorLogged data.error?]
            else []) := by
        simp [handle_response, hmsg, hdr, hlk]
      rw [hmain]
      simp [noWaiterFor, hdr, hlk]
    | some w =>
      have hmain : handle_response raises st data =
          ({ st with callbacks := removeKey st.callbacks rid },
           Event.callbackCalled w data ::
             (if data.type? = some "error" then [Event.errorLogged data.error?]
               else [])) := by
        simp [handle_response, hmsg, hdr, hlk]
      rw [hmain]
      simp [noWaiterFor, hdr, lookupKey_removeKey_self]

/-- C3: an inbound non-push record with no registered waiter (unknown id,
or no id at all) leaves the state unchanged and completes no waiter; and
re-processing any record against the post-state never completes a waiter
again, so each pending request is resolved at most once. -/
theorem unmatched_response_dropped (raises : Nat → Rec → Option String)
    (st : ClientState) (data : Rec)
    (hmsg : ¬ data.type? = some "message") :
    (noWaiterFor st data = true →
      (handle_response raises st data).1 = st ∧
      calledWaiters (handle_response raises st data).2 = []) ∧
    calledWaiters (handle_response raises
      (handle_response raises st data).1 data).2 = [] := by
  constructor
  · intro hno
    rw [handle_response_no_waiter raises st data hmsg hno]
    exact ⟨rfl, calledWaiters_errTail data⟩
  · rw [handle_response_no_waiter raises _ data hmsg
      (noWaiterFor_post raises st data hmsg)]
    exact calledWaiters_errTail data

/-- Concrete instance of C3: a response with unknown id 5 is dropped with
the single registered waiter untouched, and a duplicate of an already
resolved response completes nothing. -/
theorem unmatched_response_dropped_witness :
    (handle_response (fun _ _ => none) { callbacks := [(1, 10)] }
      { request_id? := some 5, status? := some "ok" }).1 =
      { callbacks := [(1, 10)] } ∧
    calledWaiters (handle_response (fun _ _ => none) { callbacks := [(1, 10)] }
      { request_id? := some 5, status? := some "ok" }).2 = [] ∧
    calledWaiters (handle_response (fun _ _ => none)
      (handle_response (fun _ _ => none) { callbacks := [(1, 10)] }
        { request_id? := some 1, status? := some "ok" }).1
      { request_id? := some 1, status? := some "ok" }).2 = [] := by
  have h5 := unmatched_response_dropped (fun _ _ => none) { callbacks := [(1, 10)] }
    { request_id? := some 5, status? := some "ok" } (by decide)
  have h1 := unmatched_response_dropped (fun _ _ => none) { callbacks := [(1, 10)] }
    { request_id? := some 1, status? := some "ok" } (by decide)
  exact ⟨(h5.1 (by decide)).1, (h5.1 (by decide)).2, h1.2⟩

/-- C7: a push to a topic invokes every handler registered for that topic,
in registration order, whether or not any of them raise; dispatch does not
change the client state, so a later push is served from the same registry,
as the third conjunct shows by re-dispatching against the post-state. -/
theorem handlers_run_in_order_isolated (raises : Nat → Rec → Option String)
    (st : ClientState) (data : Rec) (topic : String) (hs : List Nat)
    (hty : data.type? = some "message") (htop : data.topic? = some topic)
    (hreg : lookupKey st.message_handlers topic = some hs) :
    (handle_response raises st data).1 = st ∧
    calledHandlers (handle_response raises st data).2 = hs ∧
    calledHandlers (handle_response raises
      (handle_response raises st data).1 data).2 = hs := by
  have hmain : handle_response raises st data = (st, runHandlers raises hs data) := by
    simp [handle_response, hty, htop, hreg]
  rw [hmain]
  exact ⟨rfl, calledHandlers_runHandlers raises hs data, by
    rw [show (st, runHandlers raises hs data).1 = st from rfl, hmain]
    exact calledHandlers_runHandlers raises hs data⟩

/-- Concrete instance of C7: handlers 1 and 2 are registered for "events"
and handler 1 raises; both are still invoked, in order, on the push, and
again on a second identical push. -/
theorem handlers_run_in_order_isolated_witness :
    (handle_response (fun h _ => if h = 1 then some "boom" else none)
      { message_handlers := [("events", [1, 2])] }
      { type? := some "message", topic? := some "events" }).1 =
      { message_handlers := [("events", [1, 2])] } ∧
    calledHandlers (handle_response (fun h _ => if h = 1 then some "boom" else none)
      { message_handlers := [("events", [1, 2])] }
      { type? := some "message", topic? := some "events" }).2 = [1, 2] ∧
    calledHandlers (handle_response (fun h _ => if h = 1 then some "boom" else none)
      (handle_response (fun h _ => if h = 1 then some "boom" else none)
        { message_handlers := [("events", [1, 2])] }
        { type? := some "message", topic? := some "events" }).1
      { type? := some "message", topic? := some "events" }).2 = [1, 2] :=
  handlers_run_in_order_isolated (fun h _ => if h = 1 then some "boom" else none)
    { message_handlers := [("events", [1, 2])] }
    { type? := some "message", topic? := some "events" } "events" [1, 2]
    rfl rfl rfl

/-- C8: unsubscribe deletes the topic's entire handler list as its first
action, before the command is written and independent of whether a broker
acknowledgement ever arrives (`resolved` is arbitrary, including `none`);
a push for that topic against the post-state invokes zero handlers and
produces no events at all. -/
theorem unsubscribe_clears_topic_immediately (raises : Nat → Rec → Option String)
    (st : ClientState) (topic : String) (w : Nat) (resolved : Option Rec)
    (push : Rec) (hty : push.type? = some "message")
    (htop : push.topic? = some topic) :
    (unsubscribeRun st topic w resolved).2.1 =
      [Action.clearHandlers topic,
       Action.write { op := "unsubscribe", topic? := some topic,
                      request_id := st.request_id + 1 }] ∧
    lookupKey (unsubscribeRun st topic w resolved).1.message_handlers topic = none ∧
    handle_response raises (unsubscribeRun st topic w resolved).1 push =
      ((unsubscribeRun st topic w resolved).1, []) := by
  have hl : lookupKey (unsubscribeRun st topic w resolved).1.message_handlers topic
      = none := lookupKey_removeKey_self _ _
  exact ⟨rfl, hl, by simp [handle_response, hty, htop, hl]⟩

/-- Concrete instance of C8: after `unsubscribe("events")` with two
handlers registered and no broker reply, a push to "events" invokes no
handler. -/
theorem unsubscribe_clears_topic_immediately_witness :
    (unsubscribeRun { message_handlers := [("events", [1, 2])] } "events" 7 none).2.1 =
      [Action.clearHandlers "events",
       Action.write { op := "unsubscribe", topic? := some "events", request_id := 1 }] ∧
    lookupKey (unsubscribeRun { message_handlers := [("events", [1, 2])] }
      "events" 7 none).1.message_handlers "events" = none ∧
    handle_response (fun _ _ => none)
      (unsubscribeRun { message_handlers := [("events", [1, 2])] } "events" 7 none).1
      { type? := some "message", topic? := some "events" } =
      ((unsubscribeRun { message_handlers := [("events", [1, 2])] } "events" 7 none).1, []) :=
  unsubscribe_clears_topic_immediately (fun _ _ => none)
    { message_handlers := [("events", [1, 2])] } "events" 7 none
    { type? := some "message", topic? := some "events" } rfl rfl

/-- C9: subscribe's action trace puts the handler registration strictly
before the command write, the state in which the write happens already has
the handler appended at the end of the topic's ordered list, and the send
step leaves the subscription registry unchanged, so at no point has the
command been sent with the handler unregistered. -/
theorem subscribe_registers_handler_before_send (st : ClientState)
    (topic : String) (h w : Nat) (resolved : Option Rec) :
    (subscribeRun st topic h w resolved).2.1 =
      [Action.registerHandler topic h,
       Action.write { op := "subscribe", topic? := some topic,
                      request_id := st.request_id + 1 }] ∧
    lookupKey (subscribeRegister st topic h).message_handlers topic =
      some ((lookupKey st.message_handlers topic).getD [] ++ [h]) ∧
    (subscribeRun st topic h w resolved).1.message_handlers =
      (subscribeRegister st topic h).message_handlers :=
  ⟨rfl, lookupKey_appendHandler_self st.message_handlers topic h, rfl⟩

/-- C10: a line that strips to empty is skipped silently by the read loop:
no state change, no parse-error log, no classification of any kind. -/
theorem blank_line_skipped (raises : Nat → Rec → Option String)
    (parse : String → Option Rec) (st : ClientState) (line : String)
    (hblank : pyStrip line = "") :
    processLine raises parse st line = (st, []) := by
  simp [processLine, hblank]

/-- Concrete instance of C10: a whitespace-only line is a no-op. -/
theorem blank_line_skipped_witness :
    processLine (fun _ _ => none) (fun _ => none) { callbacks := [(1, 10)] }
      " \x09 " = ({ callbacks := [(1, 10)] }, []) :=
  blank_line_skipped (fun _ _ => none) (fun _ => none)
    { callbacks := [(1, 10)] } " \x09 " rfl

/-- Counterexample to C2: with waiters 10 and 20 pending, stream
termination leaves both registered — neither is completed with a
ConnectionLost failure — and a ping issued after the loss still registers
a waiter and writes the command line unconditionally. -/
theorem stream_end_leaves_waiters_and_still_writes :
    (on_stream_end { request_id := 2, callbacks := [(1, 10), (2, 20)] }).callbacks
      = [(1, 10), (2, 20)] ∧
    (on_stream_end { request_id := 2, callbacks := [(1, 10), (2, 20)] }).running
      = false ∧
    (pingRun (on_stream_end { request_id := 2, callbacks := [(1, 10), (2, 20)] })
      30 none).2.1 =
      [Action.write { op := "ping", topic? := none, request_id := 3 }] :=
  ⟨rfl, rfl, rfl⟩

/-- C2 (amended): on stream termination or a read fault the read loop
only clears the running flag; the pending-waiter registry is untouched,
so pending callers are left to their individual timeouts rather than
completed with a ConnectionLost failure, and a subsequent facade call
does not fail fast: it still registers a fresh waiter and attempts the
write. -/
theorem stream_end_marks_not_running_only (st : ClientState) (w : Nat) :
    (on_stream_end st).callbacks = st.callbacks ∧
    (on_stream_end st).message_handlers = st.message_handlers ∧
    (on_stream_end st).running = false ∧
    (pingRun (on_stream_end st) w none).2.1 =
      [Action.write { op := "ping", topic? := none,
                      request_id := st.request_id + 1 }] ∧
    lookupKey (pingRun (on_stream_end st) w none).1.callbacks
      (st.request_id + 1) = some w :=
  ⟨rfl, rfl, rfl, rfl, lookupKey_setKey_self _ _ _⟩

/-- Counterexample to C4: a publish that gets no response raises the
Timeout error, yet the pending entry allocated for it (id 1, waiter 10)
is still registered when the call returns, and an unsubscribe that gets
no response does not fail at all. -/
theorem publish_timeout_retains_pending_entry :
    (publishRun {} 10 "t" none).2.2 =
      Except.error (OpErr.timeout "Publish timeout") ∧
    lookupKey (publishRun {} 10 "t" none).1.callbacks 1 = some 10 ∧
    (unsubscribeRun {} "t" 11 none).2.2 = Except.ok Rec.empty :=
  ⟨rfl, rfl, rfl⟩

/-- C4 (amended): with no response before the timeout, publish, subscribe
and ping fail with a Timeout-kind error but perform no expiry: the
pending entry for the allocated id is still registered when the call
returns; unsubscribe does not fail at all, returning the empty result. -/
theorem timeout_raises_but_retains_entry (st : ClientState) (w h : Nat)
    (topic : String) :
    (publishRun st w topic none).2.2 =
      Except.error (OpErr.timeout "Publish timeout") ∧
    lookupKey (publishRun st w topic none).1.callbacks
      (st.request_id + 1) = some w ∧
    (subscribeRun st topic h w none).2.2 =
      Except.error (OpErr.timeout "Subscribe timeout") ∧
    lookupKey (subscribeRun st topic h w none).1.callbacks
      (st.request_id + 1) = some w ∧
    (pingRun st w none).2.2 = Except.error (OpErr.timeout "Ping timeout") ∧
    lookupKey (pingRun st w none).1.callbacks (st.request_id + 1) = some w ∧
    (unsubscribeRun st topic w none).2.2 = Except.ok Rec.empty :=
  ⟨rfl, lookupKey_setKey_self _ _ _, rfl, lookupKey_setKey_self _ _ _, rfl,
   lookupKey_setKey_self _ _ _, rfl⟩

/-- Counterexample to C5: a ping whose waiter resolves with a
status-"error" record returns that record as a success instead of
failing with an OperationFailed-kind error. -/
theorem ping_returns_error_status_record :
    (pingRun {} 10
        (some { request_id? := some 1, status? := some "error",
                error? := some "boom" })).2.2 =
      Except.ok { request_id? := some 1, status? := some "error",
                  error? := some "boom" } :=
  rfl

/-- C5 (amended): the status check is per-operation, not uniform.
Publish and subscribe fail with an OperationFailed-kind error carrying
the broker's error string (or a fixed default) when the resolved record's
status is not "ok", and return the record when it is; ping and
unsubscribe perform no status check and return the resolved record
regardless of its status. -/
theorem status_check_per_operation (st : ClientState) (w h : Nat)
    (topic : String) (r : Rec) (hne : ¬ r = Rec.empty) :
    (¬ r.status? = some "ok" →
      (publishRun st w topic (some r)).2.2 =
        Except.error (OpErr.failed (r.error?.getD "Publish failed")) ∧
      (subscribeRun st topic h w (some r)).2.2 =
        Except.error (OpErr.failed (r.error?.getD "Subscribe failed"))) ∧
    (r.status? = some "ok" →
      (publishRun st w topic (some r)).2.2 = Except.ok r ∧
      (subscribeRun st topic h w (some r)).2.2 = Except.ok r) ∧
    (pingRun st w (some r)).2.2 = Except.ok r ∧
    (unsubscribeRun st topic w (some r)).2.2 = Except.ok r := by
  refine ⟨fun hbad => ?_, fun hok => ?_, ?_, rfl⟩
  · exact ⟨by simp [publishRun, send, finishStrict, hne, hbad],
      by simp [subscribeRun, send, finishStrict, hne, hbad]⟩
  · exact ⟨by simp [publishRun, send, finishStrict, hne, hok],
      by simp [subscribeRun, send, finishStrict, hne, hok]⟩
  · simp [pingRun, send, hne]

/-- Concrete instance of the amended C5: on a status-"error" record
carrying error string "boom", publish fails with that string while ping
returns the record unchanged. -/
theorem status_check_per_operation_witness :
    (publishRun {} 10 "t"
        (some { request_id? := some 1, status? := some "error",
                error? := some "boom" })).2.2 =
      Except.error (OpErr.failed "boom") ∧
    (pingRun {} 10
        (some { request_id? := some 1, status? := some "error",
                error? := some "boom" })).2.2 =
      Except.ok { request_id? := some 1, status? := some "error",
                  error? := some "boom" } := by
  have hmain := status_check_per_operation {} 10 11 "t"
    { request_id? := some 1, status? := some "error", error? := some "boom" }
    (by decide)
  exact ⟨(hmain.1 (by decide)).1, hmain.2.2.1⟩

/-- Counterexample to C6: the record `{"type": "error", "request_id": 1,
"error": "boom"}` with waiter 10 registered under id 1 takes two of the
claimed mutually exclusive branches at once: it resolves the waiter and
it is logged as an error. -/
theorem error_record_takes_both_branches :
    calledWaiters (handle_response (fun _ _ => none) { callbacks := [(1, 10)] }
      { type? := some "error", request_id? := some 1, error? := some "boom" }).2 =
      [(10, { type? := some "error", request_id? := some 1,
              error? := some "boom" })] ∧
    errorLogs (handle_response (fun _ _ => none) { callbacks := [(1, 10)] }
      { type? := some "error", request_id? := some 1, error? := some "boom" }).2 =
      [some "boom"] :=
  ⟨rfl, rfl⟩

/-- Unsolicited-error logs of the error-log tail. -/
theorem errorLogs_errTail (data : Rec) :
    errorLogs
      (if data.type? = some "error" then [Event.errorLogged data.error?] else []) =
      (if data.type? = some "error" then [data.error?] else []) := by
  by_cases herr : data.type? = some "error" <;> simp [herr, errorLogs]

/-- C6 (amended): the message branch is exclusive — a record with type
"message" only dispatches to subscribers, completing no waiter and
logging no error.  Any other record is classified by two independent
`if`s rather than an `elif` chain: it invokes no handler, its waiter
completions are exactly those the request_id lookup determines, and an
error log line is emitted whenever its type is "error" — even when a
waiter was resolved, so such a record takes both branches. -/
theorem classification_message_exclusive_then_independent
    (raises : Nat → Rec → Option String) (st : ClientState) (data : Rec) :
    (data.type? = some "message" →
      calledWaiters (handle_response raises st data).2 = [] ∧
      errorLogs (handle_response raises st data).2 = [] ∧
      (handle_response raises st data).1 = st) ∧
    (¬ data.type? = some "message" →
      calledHandlers (handle_response raises st data).2 = [] ∧
      calledWaiters (handle_response raises st data).2 =
        (match data.request_id? with
         | some rid =>
           match lookupKey st.callbacks rid with
           | some w => [(w, data)]
           | none => []
         | none => []) ∧
      errorLogs (handle_response raises st data).2 =
        (if data.type? = some "error" then [data.error?] else [])) := by
  constructor
  · intro hty
    cases htop : data.topic? with
    | none => simp [handle_response, hty, htop, calledWaiters, errorLogs]
    | some topic =>
      cases hlk : lookupKey st.message_handlers topic with
      | none => simp [handle_response, hty, htop, hlk, calledWaiters, errorLogs]
      | some hs =>
        refine ⟨?_, ?_, ?_⟩ <;>
          simp [handle_response, hty, htop, hlk, calledWaiters_runHandlers,
            errorLogs_runHandlers]
  · intro hmsg
    cases hdr : data.request_id? with
    | none =>
      by_cases herr : data.type? = some "error" <;>
        simp [handle_response, hmsg, hdr, herr, calledWaiters, errorLogs,
          calledHandlers]
    | some rid =>
      cases hlk : lookupKey st.callbacks rid with
      | none =>
        by_cases herr : data.type? = some "error" <;>
          simp [handle_response, hmsg, hdr, hlk, herr, calledWaiters, errorLogs,
            calledHandlers]
      | some w =>
        by_cases herr : data.type? = some "error" <;>
          simp [handle_response, hmsg, hdr, hlk, herr, calledWaiters, errorLogs,
            calledHandlers]

/-- Concrete instance of the amended C6: the doubly classified error
record invokes no handler, resolves waiter 10, and is logged. -/
theorem classification_message_exclusive_then_independent_witness :
    calledHandlers (handle_response (fun _ _ => none) { callbacks := [(1, 10)] }
      { type? := some "error", request_id? := some 1, error? := some "x" }).2 = [] ∧
    calledWaiters (handle_response (fun _ _ => none) { callbacks := [(1, 10)] }
      { type? := some "error", request_id? := some 1, error? := some "x" }).2 =
      [(10, { type? := some "error", request_id? := some 1, error? := some "x" })] ∧
    errorLogs (handle_response (fun _ _ => none) { callbacks := [(1, 10)] }
      { type? := some "error", request_id? := some 1, error? := some "x" }).2 =
      [some "x"] := by
  have hmain := classification_message_exclusive_then_independent
    (fun _ _ => none) { callbacks := [(1, 10)] }
    { type? := some "error", request_id? := some 1, error? := some "x" }
  have h2 := hmain.2 (by decide)
  exact ⟨h2.1, h2.2.1, h2.2.2⟩

end Shortbus
